import Mathlib

/-!
BAM Data Store landing page (`gui`)

A shallow embedding of the React components of the repository and the
properties of locale resolution, theme toggling, translation lookups and
page composition.

A component is embedded as the function from its inputs (props, hook results,
component state) to the JSX tree it returns.  Calls into libraries that the
components only import (`next-intl`, `next/font/local`, CSS modules, the
registry `i18n/routing`) are inputs of the embedded function.

* `BamDataStore.App`    : `gui/app/**`
* `BamDataStore.Locale` : `gui/src/app/[locale]/**`
-/

namespace BamDataStore

/-! ## JSX trees -/

/-- A message catalog as `getMessages` yields it: the content of a JSON file,
a string or an object of named entries. -/
inductive Msg where
  | str (s : String)
  | obj (fields : List (String × Msg))

/-- The value of a JSX prop.
* `str`  : a string, `href="/en"` or `lang={locale}`;
* `num`  : a number, `width={50}`;
* `ref`  : a reference to a binding in scope, `{styles.footer}`, `{toggleMenu}`;
* `tmpl` : a template literal made of references separated by one blank;
* `msgs` : a message catalog, `messages={messages}`. -/
inductive PropVal where
  | str (s : String)
  | num (n : Nat)
  | ref (path : List String)
  | tmpl (parts : List (List String))
  | msgs (m : Msg)

/-- A JSX tree.  `elem` is an element, of an HTML tag or of a component that is
only imported (`ThemeProvider`, `Header`); `text` is JSX text; `slot c` is the
place where a value received as a prop (the `children` prop) is inserted. The
type `χ` of these values is a parameter: a tree holds such a value only in a
`slot`. -/
inductive Node (χ : Type) where
  | text (s : String)
  | elem (tag : String) (props : List (String × PropVal)) (kids : List (Node χ))
  | slot (c : χ)

/-- A tree of a component that receives no `children`. -/
abbrev View : Type := Node Empty

mutual
/-- Tags of all elements of a tree, in document order. -/
def Node.tags {χ : Type} : Node χ → List String
  | .text _ => []
  | .elem t _ ks => t :: Node.tagsL ks
  | .slot _ => []
/-- Tags of all elements of a list of trees, in document order. -/
def Node.tagsL {χ : Type} : List (Node χ) → List String
  | [] => []
  | k :: ks => k.tags ++ Node.tagsL ks
end

mutual
/-- Texts of a tree, in document order. -/
def Node.texts {χ : Type} : Node χ → List String
  | .text s => [s]
  | .elem _ _ ks => Node.textsL ks
  | .slot _ => []
/-- Texts of a list of trees, in document order. -/
def Node.textsL {χ : Type} : List (Node χ) → List String
  | [] => []
  | k :: ks => k.texts ++ Node.textsL ks
end

mutual
/-- Values inserted in a tree through a `slot`, in document order. -/
def Node.slots {χ : Type} : Node χ → List χ
  | .text _ => []
  | .elem _ _ ks => Node.slotsL ks
  | .slot c => [c]
/-- Values inserted in a list of trees through a `slot`. -/
def Node.slotsL {χ : Type} : List (Node χ) → List χ
  | [] => []
  | k :: ks => k.slots ++ Node.slotsL ks
end

mutual
/-- All subtrees of a tree, the tree itself first, in document order. -/
def Node.nodes {χ : Type} : Node χ → List (Node χ)
  | .text s => [.text s]
  | .elem t ps ks => .elem t ps ks :: Node.nodesL ks
  | .slot c => [.slot c]
/-- All subtrees of a list of trees. -/
def Node.nodesL {χ : Type} : List (Node χ) → List (Node χ)
  | [] => []
  | k :: ks => k.nodes ++ Node.nodesL ks
end

/-- The tag of an element. -/
def Node.tag? {χ : Type} : Node χ → Option String
  | .elem t _ _ => some t
  | _ => none

/-- Direct children of an element. -/
def Node.kids {χ : Type} : Node χ → List (Node χ)
  | .elem _ _ ks => ks
  | _ => []

/-- The prop `name` of an element. -/
def Node.prop? {χ : Type} (name : String) : Node χ → Option PropVal
  | .elem _ ps _ => ps.lookup name
  | _ => none

/-- The `lang` attribute of an element, when it is a string. -/
def Node.lang? {χ : Type} (n : Node χ) : Option String :=
  match n.prop? "lang" with
  | some (.str s) => some s
  | _ => none

/-- The link an element of tag `tag` stands for: its string `href` and its texts. -/
def Node.link? {χ : Type} (tag : String) : Node χ → Option (String × List String)
  | .elem t ps ks =>
    if t = tag then
      match ps.lookup "href" with
      | some (.str h) => some (h, Node.textsL ks)
      | _ => none
    else none
  | _ => none

/-- All links of tag `tag` (`a`, `Link`) in a tree: `href` and texts, in document order. -/
def Node.links {χ : Type} (tag : String) (n : Node χ) : List (String × List String) :=
  n.nodes.filterMap (Node.link? tag)

/-- The catalog an element `NextIntlClientProvider` receives in its prop `messages`. -/
def Node.messages? {χ : Type} : Node χ → Option Msg
  | .elem t ps _ =>
    if t = "NextIntlClientProvider" then
      match ps.lookup "messages" with
      | some (.msgs m) => some m
      | _ => none
    else none
  | _ => none

/-- All catalogs passed to a `NextIntlClientProvider` in a tree. -/
def Node.providedMessages {χ : Type} (n : Node χ) : List Msg :=
  n.nodes.filterMap Node.messages?

/-! ## Effects of a render -/

/-- The library calls a render makes that the properties below speak of. -/
inductive Call where
  | getMessages
  | t (ns key : String)
  deriving DecidableEq

/-- A value together with the calls made to obtain it, in order. -/
structure Traced (α : Type) where
  calls : List Call
  value : α

instance : Monad Traced where
  pure a := ⟨[], a⟩
  bind m f := ⟨m.calls ++ (f m.value).calls, (f m.value).value⟩

/-- The error of a rejected promise. -/
abbrev Err : Type := String

/-- The outcome of an async component: the calls made, in order, and either the
tree returned or the error thrown. -/
structure Eff (α : Type) where
  calls : List Call
  result : Except Err α

instance : Monad Eff where
  pure a := ⟨[], .ok a⟩
  bind m f :=
    match m.result with
    | .ok a => ⟨m.calls ++ (f a).calls, (f a).result⟩
    | .error e => ⟨m.calls, .error e⟩

/-! ## `gui/src/app/[locale]/layout.js` -/

namespace Locale

/-- The object `routing` of `i18n/routing`, of which the layout reads `locales`. -/
structure Routing where
  locales : List String

/-- The awaited `params` of the layout: the segment of the path. -/
structure Params where
  locale : String

/-- The `className` of `body`: the `variable` of the three fonts of `localFont`. -/
def bodyClassName : PropVal :=
  .tmpl [["klavikaMedium", "variable"], ["klavikaLight", "variable"], ["geistMono", "variable"]]

/-- `LanguageNotSupported()`: the fallback for unsupported languages. It has no props. -/
def LanguageNotSupported {χ : Type} : Node χ :=
  .elem "html" [("lang", .str "en")]
    [.elem "body" [("className", bodyClassName)]
      [.elem "h1" [] [.text "Language not supported"],
       .elem "p" []
        [.text "The selected language is not supported. Please go back and choose a valid language."]]]

/-- The call `await getMessages()`: one call, whose outcome is the one of the promise. -/
def awaitGetMessages (getMessages : Unit → Except Err Msg) : Eff Msg :=
  ⟨[Call.getMessages], getMessages ()⟩

/-- `LocaleLayout({ children, params })`. The module takes `routing` and
`getMessages` from `i18n/routing` and `next-intl/server`; a promise may reject,
so `getMessages` yields a catalog or an error. `routing.locales.includes(locale)`
is equality of strings with an entry of the array. -/
def LocaleLayout {χ : Type} (routing : Routing) (getMessages : Unit → Except Err Msg)
    (children : χ) (params : Params) : Eff (Node χ) :=
  let locale := params.locale
  if !routing.locales.contains locale then
    pure LanguageNotSupported
  else do
    let messages ← awaitGetMessages getMessages
    pure (.elem "html" [("lang", .str locale)]
      [.elem "body" [("className", bodyClassName)]
        [.elem "ThemeProvider" []
          [.elem "NextIntlClientProvider" [("messages", .msgs messages)]
            [.slot children]]]])

/-! ## `gui/src/app/[locale]/components/context/ThemeContext` -/

/-- Modelled from the spec: the module `components/context/ThemeContext`
(`ThemeProvider`, `useTheme`) is not among the sources. The theme state is one
of the two values `light` and `dark`. -/
inductive ThemeState where
  | light
  | dark
  deriving DecidableEq

/-- Modelled from the spec: the value `useTheme().theme` of a theme state, the
string `light` or `dark`; `ThemeContext` is not among the sources. -/
def ThemeState.value : ThemeState → String
  | .light => "light"
  | .dark => "dark"

/-- Modelled from the spec: `toggleTheme` of `ThemeContext`, which is not among
the sources, flips the current state to its complement. -/
def toggleTheme : ThemeState → ThemeState
  | .light => .dark
  | .dark => .light

/-! ## `gui/src/app/[locale]/components/Header.js` -/

/-- `Header()`, as a function of `theme`, the first component of `useTheme()`;
the second, `toggleTheme`, is only passed on as the `onClick` of the button. -/
def Header (theme : String) : View :=
  .elem "header" [("className", .ref ["styles", "header"])]
    [.elem "div" [("className", .ref ["styles", "logoBox"])]
      [.elem "Image"
        [("src", .str "/DataStore_Project_WithLabel.svg"),
         ("alt", .str "DataStore Logo with text"),
         ("width", .num 50), ("height", .num 50),
         ("className", .ref ["styles", "logo"])] []],
     .elem "div" [("className", .ref ["styles", "contactBox"])]
      [.elem "a" [("href", .str "#"), ("className", .ref ["styles", "contact"])]
        [.text "Contact"]],
     .elem "button"
      [("onClick", .ref ["toggleTheme"]), ("className", .ref ["styles", "themeToggle"])]
      [if theme = "light" then .elem "LightMode" [] [] else .elem "DarkMode" [] []]]

/-- The glyphs of the theme button of a header: the tags of the children of
its `button`. -/
def themeGlyph (header : View) : List String :=
  (header.nodes.filter (fun n => n.tag? = some "button")).flatMap
    (fun n => n.kids.flatMap Node.tags)

/-! ## `gui/src/app/[locale]/components/MainButtons.js` -/

/-- The props every anchor of the buttons shares after its `href`. -/
def anchorProps (href : String) (className : String) : List (String × PropVal) :=
  [("href", .str href), ("className", .ref ["styles", className]),
   ("target", .str "_blank"), ("rel", .str "noopener noreferrer")]

/-- A call `t(key)` of the function `useTranslations(ns)` returns: the call is
recorded, its value is the one of the hook. -/
def translate (useTranslations : String → String → String) (ns key : String) :
    Traced String :=
  ⟨[Call.t ns key], useTranslations ns key⟩

/-- `MainButtons()`, as a function of the hook `useTranslations` of `next-intl`
(namespace, then key, to the text shown). The children of a JSX element are
evaluated from left to right. -/
def MainButtons (useTranslations : String → String → String) : Traced View := do
  let t := translate useTranslations "MainButtons"
  let mainInstance ← t "mainInstance"
  let wiki ← t "wiki"
  let masterdataTools ← t "masterdataTools"
  pure (.elem "div" [("className", .ref ["styles", "hrefsButtons"])]
    [.elem "div" [("className", .ref ["styles", "ctas"])]
      [.elem "a" (anchorProps "https://main.datastore.bam.de/" "primary") [.text mainInstance],
       .elem "a" (anchorProps "https://datastore.bam.de/en/home" "primary") [.text wiki],
       .elem "a" (anchorProps "/en" "primary") [.text masterdataTools]]])

/-- The entry `key` of the object `ns` of a catalog, when it is a string. -/
def lookupMessage (messages : Msg) (ns key : String) : Option String :=
  match messages with
  | .obj fields =>
    match fields.lookup ns with
    | some (.obj entries) =>
      match entries.lookup key with
      | some (.str s) => some s
      | _ => none
    | _ => none
  | .str _ => none

/-- A catalog with the three keys of the buttons, all plain text. -/
def sampleCatalog : Msg :=
  .obj [("Header", .obj [("contact", .str "Kontakt")]),
        ("MainButtons", .obj
          [("mainInstance", .str "Hauptinstanz des Data Store"),
           ("wiki", .str "Dokumentation"),
           ("masterdataTools", .str "Masterdata-Werkzeuge")])]

/-- A catalog with the three keys of the buttons, where the message of
`mainInstance` has a placeholder of ICU MessageFormat. -/
def placeholderCatalog : Msg :=
  .obj [("MainButtons", .obj
          [("mainInstance", .str "Data Store of \x7binstitute\x7d"),
           ("wiki", .str "Documentation"),
           ("masterdataTools", .str "Masterdata Tools")])]

/-- An absolute `http` or `https` URL: the string starts with the scheme and `//`. -/
def isAbsoluteHttpUrl (href : String) : Bool :=
  "http://".toList.isPrefixOf href.toList || "https://".toList.isPrefixOf href.toList

/-! ## `gui/src/app/[locale]/components/OtherInstances.js` -/

/-- `OtherInstances()`. -/
def OtherInstances : View :=
  .elem "div" [("className", .ref ["styles", "otherInstances"])]
    [.elem "div" [("className", .ref ["styles", "ctas"])]
      [.elem "a" (anchorProps "#" "secondary") [.text "Another instance?"],
       .elem "a" (anchorProps "#" "secondary") [.text "Another instance?"]]]

/-! ## `gui/src/app/[locale]/components/Footer.js` -/

/-- The state of `Footer`: the value of `useState(false)`. -/
structure FooterState where
  menuOpen : Bool
  deriving DecidableEq

/-- The state of the first render: `useState(false)`. -/
def FooterState.initial : FooterState := ⟨false⟩

/-- `toggleMenu`: `setMenuOpen((prev) => !prev)`. -/
def toggleMenu (s : FooterState) : FooterState := ⟨!s.menuOpen⟩

/-- The state after `n` invocations of `toggleMenu` from the first render. -/
def afterClicks (n : Nat) : FooterState := toggleMenu^[n] FooterState.initial

/-- The language menu of the footer. -/
def languageMenu : View :=
  .elem "div" [("className", .ref ["styles", "menu"]), ("role", .str "menu")]
    [.elem "Link"
      [("href", .str "/en"), ("className", .ref ["styles", "menuItem"]), ("role", .str "menuitem")]
      [.text "English"],
     .elem "Link"
      [("href", .str "/de"), ("className", .ref ["styles", "menuItem"]), ("role", .str "menuitem")]
      [.text "Deutsch"]]

/-- `Footer()`, as a function of its state. The child `menuOpen && (...)` is the
menu when `menuOpen` holds and `false` otherwise, which React does not render. -/
def Footer (s : FooterState) : View :=
  .elem "footer" [("className", .ref ["styles", "footer"])]
    [.elem "div" [("className", .ref ["styles", "languageSelector"])]
      ([.elem "button"
        [("onClick", .ref ["toggleMenu"]), ("className", .ref ["styles", "languageButton"]),
         ("aria-haspopup", .str "menu")]
        [.elem "Language" [] [], .text "Language"]]
       ++ (if s.menuOpen then [languageMenu] else []))]

end Locale

/-! ## `gui/app/**` -/

namespace App

/-- `MainButtons()` of `gui/app/components/MainButtons.js`. -/
def MainButtons : View :=
  .elem "div" [("className", .ref ["styles", "hrefsButtons"])]
    [.elem "div" [("className", .ref ["styles", "ctas"])]
      [.elem "a" (Locale.anchorProps "https://main.datastore.bam.de/" "primary")
        [.text "Main instance of the Data Store"],
       .elem "a" (Locale.anchorProps "https://datastore.bam.de/en/home" "primary")
        [.text "Documentation"],
       .elem "a" (Locale.anchorProps "#" "primary") [.text "Masterdata Tools"]]]

/-- `Welcome()` of `gui/app/components/Welcome.js`. -/
def Welcome : View :=
  .elem "div" [("className", .tmpl [["styles", "welcome"], ["styles", "main"]])]
    [.elem "h1" [("className", .ref ["styles", "title"])]
      [.text "Welcome to BAM Data Store website!"],
     .elem "ol" []
      [.elem "li" []
        [.text "Get started by editing ", .elem "code" [] [.text "app/page.js"], .text "."],
       .elem "li" [] [.text "Save and see your changes instantly."]]]

/-- `Main()` of `gui/app/components/Main.js`. -/
def Main : View :=
  .elem "main" [("className", .ref ["styles", "main"])]
    [.elem "Welcome" [] [], .elem "MainButtons" [] [], .elem "OtherInstances" [] []]

/-- `Home()` of `gui/app/page.js`. -/
def Home : View :=
  .elem "div" [("className", .ref ["styles", "page"])]
    [.elem "Header" [] [], .elem "Main" [] [], .elem "Footer" [] []]

/-- The components of `gui/app/components` whose source is present, by the
name under which `page.js` and `Main.js` bind them. -/
def component? (name : String) : Option View :=
  if name = "Main" then some Main
  else if name = "Welcome" then some Welcome
  else if name = "MainButtons" then some MainButtons
  else none

end App

end BamDataStore

/-! # Properties -/

namespace BamDataStore

open Locale

/-! ## Unfolding the layout -/

/-- The layout on a segment outside the registry: no call, the fallback. -/
theorem LocaleLayout_of_not_mem {χ : Type} (routing : Routing)
    (getMessages : Unit → Except Err Msg) (children : χ) (params : Params)
    (h : params.locale ∉ routing.locales) :
    LocaleLayout routing getMessages children params = ⟨[], .ok LanguageNotSupported⟩ := by
  simp [LocaleLayout, h, pure]

/-- The layout on a registered segment when `getMessages` resolves. -/
theorem LocaleLayout_of_mem_ok {χ : Type} (routing : Routing)
    (getMessages : Unit → Except Err Msg) (children : χ) (params : Params)
    (h : params.locale ∈ routing.locales) (m : Msg) (hm : getMessages () = .ok m) :
    LocaleLayout routing getMessages children params =
      ⟨[Call.getMessages], .ok (.elem "html" [("lang", .str params.locale)]
        [.elem "body" [("className", bodyClassName)]
          [.elem "ThemeProvider" []
            [.elem "NextIntlClientProvider" [("messages", .msgs m)]
              [.slot children]]]])⟩ := by
  simp [LocaleLayout, h, pure, bind, awaitGetMessages, hm]

/-- The layout on a registered segment when `getMessages` rejects. -/
theorem LocaleLayout_of_mem_error {χ : Type} (routing : Routing)
    (getMessages : Unit → Except Err Msg) (children : χ) (params : Params)
    (h : params.locale ∈ routing.locales) (e : Err) (he : getMessages () = .error e) :
    LocaleLayout routing getMessages children params = ⟨[Call.getMessages], .error e⟩ := by
  simp [LocaleLayout, h, pure, bind, awaitGetMessages, he]

/-! ## Locale resolution (`LocaleLayout`) -/

/-- C1, as stated, fails: with the registry `['en','de']` and the registered
segment `en`, a rejected `getMessages()` makes `LocaleLayout` throw, so it is
not true that it never throws for any string input. -/
theorem LocaleLayout_throws_on_registered_segment :
    "en" ∈ (Routing.mk ["en", "de"]).locales ∧
    (LocaleLayout ⟨["en", "de"]⟩ (fun _ => .error "No messages found") () ⟨"en"⟩).result
      = .error "No messages found" ∧
    ¬ ∃ v, (LocaleLayout ⟨["en", "de"]⟩ (fun _ => .error "No messages found") () ⟨"en"⟩).result
      = .ok v := by
  refine ⟨by decide, rfl, ?_⟩
  rintro ⟨v, hv⟩
  cases hv

/-- C1, amended: for every registry and every requested segment, `LocaleLayout`
returns the `LanguageNotSupported` view if and only if the segment is not an
element of `routing.locales` (equality of strings, so case and blanks count);
for an element, once `getMessages()` resolves, it returns the normal view, whose
`html` has exactly that segment as `lang` and which wraps `children`; it throws
exactly when the segment is registered and `getMessages()` rejects, with that
error, so never for a segment outside the registry. -/
theorem LocaleLayout_resolves_by_membership {χ : Type} (routing : Routing)
    (getMessages : Unit → Except Err Msg) (children : χ) (params : Params) :
    ((LocaleLayout routing getMessages children params).result = .ok LanguageNotSupported
        ↔ params.locale ∉ routing.locales) ∧
    (params.locale ∈ routing.locales → ∀ m, getMessages () = .ok m →
      ∃ v, (LocaleLayout routing getMessages children params).result = .ok v ∧
        v.tag? = some "html" ∧ v.lang? = some params.locale ∧ v.slots = [children] ∧
        v.tags = ["html", "body", "ThemeProvider", "NextIntlClientProvider"]) ∧
    (∀ e, (LocaleLayout routing getMessages children params).result = .error e
        ↔ params.locale ∈ routing.locales ∧ getMessages () = .error e) ∧
    (params.locale ∉ routing.locales →
      ∃ v, (LocaleLayout routing getMessages children params).result = .ok v) := by
  by_cases h : params.locale ∈ routing.locales
  · cases hm : getMessages () with
    | error e =>
      rw [LocaleLayout_of_mem_error routing getMessages children params h e hm]
      refine ⟨?_, ?_, ?_, ?_⟩
      · simp [h]
      · intro _ m hm2
        cases hm2
      · intro e2
        simp [h]
      · intro h2
        exact absurd h h2
    | ok m =>
      rw [LocaleLayout_of_mem_ok routing getMessages children params h m hm]
      refine ⟨?_, ?_, ?_, ?_⟩
      · simp [h, LanguageNotSupported]
      · intro _ m2 hm2
        cases hm2
        exact ⟨_, rfl, rfl, rfl, rfl, rfl⟩
      · intro e2
        simp
      · intro h2
        exact absurd h h2
  · rw [LocaleLayout_of_not_mem routing getMessages children params h]
    refine ⟨?_, ?_, ?_, ?_⟩
    · simp [h]
    · intro h2
      exact absurd h2 h
    · intro e
      simp [h]
    · intro _
      exact ⟨_, rfl⟩

/-- C1, amended, at the segments the claim names: `EN`, a segment with a blank
in front and the empty segment are not in `['en','de']` and get the fallback;
`de` gets the normal view with `lang` `de`. -/
theorem LocaleLayout_resolves_by_membership_witness :
    (LocaleLayout ⟨["en", "de"]⟩ (fun _ => .ok (.obj [])) () ⟨"EN"⟩).result
      = .ok LanguageNotSupported ∧
    (LocaleLayout ⟨["en", "de"]⟩ (fun _ => .ok (.obj [])) () ⟨" en"⟩).result
      = .ok LanguageNotSupported ∧
    (LocaleLayout ⟨["en", "de"]⟩ (fun _ => .ok (.obj [])) () ⟨""⟩).result
      = .ok LanguageNotSupported ∧
    (∃ v, (LocaleLayout ⟨["en", "de"]⟩ (fun _ => .ok (.obj [])) () ⟨"de"⟩).result = .ok v ∧
        v.tag? = some "html" ∧ v.lang? = some "de" ∧ v.slots = [()] ∧
        v.tags = ["html", "body", "ThemeProvider", "NextIntlClientProvider"]) :=
  ⟨(LocaleLayout_resolves_by_membership ⟨["en", "de"]⟩ _ () ⟨"EN"⟩).1.2 (by decide),
   (LocaleLayout_resolves_by_membership ⟨["en", "de"]⟩ _ () ⟨" en"⟩).1.2 (by decide),
   (LocaleLayout_resolves_by_membership ⟨["en", "de"]⟩ _ () ⟨""⟩).1.2 (by decide),
   (LocaleLayout_resolves_by_membership ⟨["en", "de"]⟩ (fun _ => .ok (.obj [])) ()
      ⟨"de"⟩).2.1 (by decide) (.obj []) rfl⟩

/-! ## The fallback view -/

/-- C2: for every requested segment that is not in `routing.locales`, the view
`LocaleLayout` returns is only the fallback: it holds the heading
`Language not supported`, it holds no `children` (no slot at all, and the same
view whatever `children` is), and none of its elements is `ThemeProvider`,
`NextIntlClientProvider`, `Header`, `Main` or `Footer`. -/
theorem LocaleLayout_unsupported_is_fallback_only {χ : Type} (routing : Routing)
    (getMessages : Unit → Except Err Msg) (children : χ) (params : Params)
    (h : params.locale ∉ routing.locales) :
    ∃ v, (LocaleLayout routing getMessages children params).result = .ok v ∧
      v = LanguageNotSupported ∧
      Node.elem "h1" [] [.text "Language not supported"] ∈ v.nodes ∧
      v.slots = [] ∧
      (∀ children2 : χ, (LocaleLayout routing getMessages children2 params).result = .ok v) ∧
      v.tags = ["html", "body", "h1", "p"] ∧
      "ThemeProvider" ∉ v.tags ∧ "NextIntlClientProvider" ∉ v.tags ∧
      "Header" ∉ v.tags ∧ "Main" ∉ v.tags ∧ "Footer" ∉ v.tags := by
  refine ⟨LanguageNotSupported, ?_, rfl, ?_, rfl, ?_, rfl, ?_, ?_, ?_, ?_, ?_⟩
  · rw [LocaleLayout_of_not_mem routing getMessages children params h]
  · simp [LanguageNotSupported, Node.nodes, Node.nodesL]
  · intro children2
    rw [LocaleLayout_of_not_mem routing getMessages children2 params h]
  all_goals
    show _ ∉ ["html", "body", "h1", "p"]
    decide

/-- C2 at the segment `fr` against the registry `['en','de']`, with a page as
`children` and a catalog loader that would resolve. -/
theorem LocaleLayout_unsupported_is_fallback_only_witness :
    "fr" ∉ (Routing.mk ["en", "de"]).locales ∧
    ∃ v, (LocaleLayout ⟨["en", "de"]⟩ (fun _ => .ok (.obj []))
        ["Header", "Main", "Footer"] ⟨"fr"⟩).result = .ok v ∧
      v = LanguageNotSupported ∧
      Node.elem "h1" [] [.text "Language not supported"] ∈ v.nodes ∧
      v.slots = [] ∧
      (∀ children2 : List String,
        (LocaleLayout ⟨["en", "de"]⟩ (fun _ => .ok (.obj [])) children2 ⟨"fr"⟩).result = .ok v) ∧
      v.tags = ["html", "body", "h1", "p"] ∧
      "ThemeProvider" ∉ v.tags ∧ "NextIntlClientProvider" ∉ v.tags ∧
      "Header" ∉ v.tags ∧ "Main" ∉ v.tags ∧ "Footer" ∉ v.tags :=
  ⟨by decide,
   LocaleLayout_unsupported_is_fallback_only ⟨["en", "de"]⟩ (fun _ => .ok (.obj []))
     ["Header", "Main", "Footer"] ⟨"fr"⟩ (by decide)⟩

/-- C9: the fallback is static and in one language: for any two requested
segments outside `routing.locales` (and any two `children`, any two catalog
loaders) `LocaleLayout` has the identical outcome, the view
`LanguageNotSupported`, whose `html` has `lang` `en` and whose texts are the two
fixed English sentences, none derived from the request. -/
theorem LocaleLayout_fallback_is_static {χ : Type} (routing : Routing)
    (getMessages getMessages2 : Unit → Except Err Msg) (children children2 : χ)
    (params params2 : Params)
    (h : params.locale ∉ routing.locales) (h2 : params2.locale ∉ routing.locales) :
    LocaleLayout routing getMessages children params
      = LocaleLayout routing getMessages2 children2 params2 ∧
    ∃ v, (LocaleLayout routing getMessages children params).result = .ok v ∧
      v = LanguageNotSupported ∧
      v.tag? = some "html" ∧ v.lang? = some "en" ∧
      v.texts = ["Language not supported",
        "The selected language is not supported. Please go back and choose a valid language."] := by
  rw [LocaleLayout_of_not_mem routing getMessages children params h,
    LocaleLayout_of_not_mem routing getMessages2 children2 params2 h2]
  exact ⟨rfl, _, rfl, rfl, rfl, rfl, rfl⟩

/-- C9 at the segments `fr` and `EN` against the registry `['en','de']`. -/
theorem LocaleLayout_fallback_is_static_witness :
    "fr" ∉ (Routing.mk ["en", "de"]).locales ∧ "EN" ∉ (Routing.mk ["en", "de"]).locales ∧
    LocaleLayout ⟨["en", "de"]⟩ (fun _ => .ok (.obj [])) "page" ⟨"fr"⟩
      = LocaleLayout ⟨["en", "de"]⟩ (fun _ => .error "No messages found") "other" ⟨"EN"⟩ ∧
    ∃ v, (LocaleLayout ⟨["en", "de"]⟩ (fun _ => .ok (.obj [])) "page" ⟨"fr"⟩).result = .ok v ∧
      v = LanguageNotSupported ∧
      v.tag? = some "html" ∧ v.lang? = some "en" ∧
      v.texts = ["Language not supported",
        "The selected language is not supported. Please go back and choose a valid language."] :=
  ⟨by decide, by decide,
   LocaleLayout_fallback_is_static ⟨["en", "de"]⟩ (fun _ => .ok (.obj []))
     (fun _ => .error "No messages found") "page" "other" ⟨"fr"⟩ ⟨"EN"⟩ (by decide) (by decide)⟩

/-! ## The catalog loader -/

/-- C8: with the calls of `LocaleLayout` recorded, `getMessages` is called
exactly once when the requested segment is in `routing.locales` and not at all
when it is not, and when it is called and returns a catalog, the `messages`
passed to `NextIntlClientProvider` are exactly that catalog. -/
theorem getMessages_only_for_registered_locale {χ : Type} (routing : Routing)
    (getMessages : Unit → Except Err Msg) (children : χ) (params : Params) :
    (params.locale ∈ routing.locales →
      (LocaleLayout routing getMessages children params).calls = [Call.getMessages] ∧
      (LocaleLayout routing getMessages children params).calls.count Call.getMessages = 1) ∧
    (params.locale ∉ routing.locales →
      (LocaleLayout routing getMessages children params).calls = [] ∧
      (LocaleLayout routing getMessages children params).calls.count Call.getMessages = 0) ∧
    (∀ m, Call.getMessages ∈ (LocaleLayout routing getMessages children params).calls →
      getMessages () = .ok m →
      ∃ v, (LocaleLayout routing getMessages children params).result = .ok v ∧
        v.providedMessages = [m] ∧
        Node.elem "NextIntlClientProvider" [("messages", .msgs m)] [.slot children] ∈ v.nodes) := by
  by_cases h : params.locale ∈ routing.locales
  · refine ⟨fun _ => ?_, fun h2 => absurd h h2, ?_⟩
    · cases hm : getMessages () with
      | error e =>
        rw [LocaleLayout_of_mem_error routing getMessages children params h e hm]
        exact ⟨rfl, rfl⟩
      | ok m =>
        rw [LocaleLayout_of_mem_ok routing getMessages children params h m hm]
        exact ⟨rfl, rfl⟩
    · intro m _ hm
      rw [LocaleLayout_of_mem_ok routing getMessages children params h m hm]
      refine ⟨_, rfl, rfl, ?_⟩
      simp [Node.nodes, Node.nodesL]
  · refine ⟨fun h2 => absurd h2 h, fun _ => ?_, ?_⟩
    · rw [LocaleLayout_of_not_mem routing getMessages children params h]
      exact ⟨rfl, rfl⟩
    · intro m hc
      rw [LocaleLayout_of_not_mem routing getMessages children params h] at hc
      cases hc

/-- C8 at the registry `['en','de']`: one call for `de`, whose catalog reaches
the provider, and no call for `fr`. -/
theorem getMessages_only_for_registered_locale_witness :
    ((LocaleLayout ⟨["en", "de"]⟩ (fun _ => .ok (.obj [("MainButtons", .obj [])]))
        () ⟨"de"⟩).calls = [Call.getMessages] ∧
      (LocaleLayout ⟨["en", "de"]⟩ (fun _ => .ok (.obj [("MainButtons", .obj [])]))
        () ⟨"de"⟩).calls.count Call.getMessages = 1) ∧
    ((LocaleLayout ⟨["en", "de"]⟩ (fun _ => .ok (.obj [("MainButtons", .obj [])]))
        () ⟨"fr"⟩).calls = [] ∧
      (LocaleLayout ⟨["en", "de"]⟩ (fun _ => .ok (.obj [("MainButtons", .obj [])]))
        () ⟨"fr"⟩).calls.count Call.getMessages = 0) :=
  ⟨(getMessages_only_for_registered_locale ⟨["en", "de"]⟩ _ () ⟨"de"⟩).1 (by decide),
   (getMessages_only_for_registered_locale ⟨["en", "de"]⟩ _ () ⟨"fr"⟩).2.1 (by decide)⟩

/-! ## The theme -/

/-- C3: the theme toggle is involutive, `toggleTheme (toggleTheme s) = s` for
each of the two theme states, and one application yields the complement:
`light` becomes `dark` and `dark` becomes `light`. -/
theorem toggleTheme_involutive :
    (∀ s : ThemeState, toggleTheme (toggleTheme s) = s) ∧
    (∀ s : ThemeState, toggleTheme s ≠ s) ∧
    toggleTheme .light = .dark ∧ toggleTheme .dark = .light := by
  refine ⟨?_, ?_, rfl, rfl⟩
  · intro s
    cases s <;> rfl
  · intro s
    cases s <;> decide

/-- C4: the glyph of the theme button of `Header` is a function of `theme`
alone: for every value of `theme` it is `LightMode` exactly when `theme` is the
string `light` and `DarkMode` otherwise; so `light` and `dark` are shown with
two different glyphs, and the glyph changes on every toggle. -/
theorem Header_glyph_of_theme :
    (∀ theme : String,
      themeGlyph (Header theme) = [if theme = "light" then "LightMode" else "DarkMode"]) ∧
    (∀ theme : String, themeGlyph (Header theme) = ["LightMode"] ↔ theme = "light") ∧
    (∀ theme : String, themeGlyph (Header theme) = ["DarkMode"] ↔ theme ≠ "light") ∧
    themeGlyph (Header ThemeState.light.value) = ["LightMode"] ∧
    themeGlyph (Header ThemeState.dark.value) = ["DarkMode"] ∧
    (∀ s : ThemeState,
      themeGlyph (Header (toggleTheme s).value) ≠ themeGlyph (Header s.value)) := by
  have key : ∀ theme : String,
      themeGlyph (Header theme) = [if theme = "light" then "LightMode" else "DarkMode"] := by
    intro theme
    by_cases h : theme = "light"
    · subst h
      rfl
    · simp only [Header, if_neg h]
      rfl
  refine ⟨key, ?_, ?_, by decide, by decide, ?_⟩
  · intro theme
    rw [key]
    by_cases h : theme = "light" <;> simp [h]
  · intro theme
    rw [key]
    by_cases h : theme = "light" <;> simp [h]
  · intro s
    cases s <;> decide

/-! ## The buttons -/

/-- C5, as stated, fails: `placeholderCatalog` defines `mainInstance`, `wiki`
and `masterdataTools` under `MainButtons`, and the message of `mainInstance`
has the placeholder `institute`. `MainButtons` calls `t('mainInstance')` without
values, for which `next-intl` cannot format the message and gives its fallback,
namespace, dot, key; the other two messages are plain and given as they are.
With this hook the text of the first anchor is not the catalog's value. -/
theorem MainButtons_text_not_catalog_value :
    lookupMessage placeholderCatalog "MainButtons" "mainInstance"
      = some "Data Store of \x7binstitute\x7d" ∧
    lookupMessage placeholderCatalog "MainButtons" "wiki" = some "Documentation" ∧
    lookupMessage placeholderCatalog "MainButtons" "masterdataTools"
      = some "Masterdata Tools" ∧
    (MainButtons (fun ns key =>
        if key = "mainInstance" then ns ++ "." ++ key
        else (lookupMessage placeholderCatalog ns key).getD (ns ++ "." ++ key))).value.texts
      = ["MainButtons.mainInstance", "Documentation", "Masterdata Tools"] ∧
    (MainButtons (fun ns key =>
        if key = "mainInstance" then ns ++ "." ++ key
        else (lookupMessage placeholderCatalog ns key).getD (ns ++ "." ++ key))).value.texts
      ≠ ["Data Store of \x7binstitute\x7d", "Documentation", "Masterdata Tools"] := by
  refine ⟨rfl, rfl, rfl, by decide, by decide⟩

/-- C5, amended: whatever the hook, the calls `t(key)` of `MainButtons` are
exactly `mainInstance`, `wiki`, `masterdataTools`, in the namespace
`MainButtons`, each once and in that order; hence for every catalog that defines
these three keys under `MainButtons`, every key `MainButtons` looks up is
defined in the catalog, and the texts of the three anchors are exactly what `t`
returns for `mainInstance`, `wiki` and `masterdataTools`, in that order. They
are the catalog's values if and only if `t` returns each of the three values
unchanged. -/
theorem MainButtons_lookups (useTranslations : String → String → String)
    (messages : Msg) (a b c : String)
    (ha : lookupMessage messages "MainButtons" "mainInstance" = some a)
    (hb : lookupMessage messages "MainButtons" "wiki" = some b)
    (hc : lookupMessage messages "MainButtons" "masterdataTools" = some c) :
    (MainButtons useTranslations).calls =
      [Call.t "MainButtons" "mainInstance", Call.t "MainButtons" "wiki",
       Call.t "MainButtons" "masterdataTools"] ∧
    (∀ call ∈ (MainButtons useTranslations).calls,
      ∃ key v, call = Call.t "MainButtons" key ∧
        lookupMessage messages "MainButtons" key = some v) ∧
    ((MainButtons useTranslations).value.links "a").map Prod.snd =
      [[useTranslations "MainButtons" "mainInstance"],
       [useTranslations "MainButtons" "wiki"],
       [useTranslations "MainButtons" "masterdataTools"]] ∧
    (MainButtons useTranslations).value.texts =
      [useTranslations "MainButtons" "mainInstance",
       useTranslations "MainButtons" "wiki",
       useTranslations "MainButtons" "masterdataTools"] ∧
    ((MainButtons useTranslations).value.texts = [a, b, c] ↔
      useTranslations "MainButtons" "mainInstance" = a ∧
      useTranslations "MainButtons" "wiki" = b ∧
      useTranslations "MainButtons" "masterdataTools" = c) := by
  have hcalls : (MainButtons useTranslations).calls =
      [Call.t "MainButtons" "mainInstance", Call.t "MainButtons" "wiki",
       Call.t "MainButtons" "masterdataTools"] := rfl
  have htexts : (MainButtons useTranslations).value.texts =
      [useTranslations "MainButtons" "mainInstance",
       useTranslations "MainButtons" "wiki",
       useTranslations "MainButtons" "masterdataTools"] := rfl
  refine ⟨hcalls, ?_, rfl, htexts, ?_⟩
  · intro call hcall
    rw [hcalls] at hcall
    simp only [List.mem_cons, List.mem_singleton, List.not_mem_nil, or_false] at hcall
    rcases hcall with h | h | h
    · exact ⟨_, _, h, ha⟩
    · exact ⟨_, _, h, hb⟩
    · exact ⟨_, _, h, hc⟩
  · rw [htexts]
    simp

/-- C5, amended, at the catalog `sampleCatalog` and a hook that returns its
plain messages unchanged: the three keys are defined and the texts of the
anchors are the catalog's values. -/
theorem MainButtons_lookups_witness :
    lookupMessage sampleCatalog "MainButtons" "mainInstance"
      = some "Hauptinstanz des Data Store" ∧
    lookupMessage sampleCatalog "MainButtons" "wiki" = some "Dokumentation" ∧
    lookupMessage sampleCatalog "MainButtons" "masterdataTools" = some "Masterdata-Werkzeuge" ∧
    (MainButtons (fun ns key =>
        (lookupMessage sampleCatalog ns key).getD (ns ++ "." ++ key))).calls =
      [Call.t "MainButtons" "mainInstance", Call.t "MainButtons" "wiki",
       Call.t "MainButtons" "masterdataTools"] ∧
    (∀ call ∈ (MainButtons (fun ns key =>
        (lookupMessage sampleCatalog ns key).getD (ns ++ "." ++ key))).calls,
      ∃ key v, call = Call.t "MainButtons" key ∧
        lookupMessage sampleCatalog "MainButtons" key = some v) ∧
    ((MainButtons (fun ns key =>
        (lookupMessage sampleCatalog ns key).getD (ns ++ "." ++ key))).value.links "a").map
      Prod.snd =
      [["Hauptinstanz des Data Store"], ["Dokumentation"], ["Masterdata-Werkzeuge"]] ∧
    (MainButtons (fun ns key =>
        (lookupMessage sampleCatalog ns key).getD (ns ++ "." ++ key))).value.texts =
      ["Hauptinstanz des Data Store", "Dokumentation", "Masterdata-Werkzeuge"] :=
  have h := MainButtons_lookups
    (fun ns key => (lookupMessage sampleCatalog ns key).getD (ns ++ "." ++ key))
    sampleCatalog "Hauptinstanz des Data Store" "Dokumentation" "Masterdata-Werkzeuge"
    rfl rfl rfl
  ⟨rfl, rfl, rfl, h.1, h.2.1, h.2.2.1, h.2.2.2.2.2 ⟨rfl, rfl, rfl⟩⟩

/-- C6, as stated, fails: the third anchor of the localized `MainButtons`
(masterdata tools) has the `href` `/en`, which is not an absolute `http(s)` URL. -/
theorem MainButtons_third_href_not_absolute :
    ((MainButtons (fun _ key => key)).value.links "a").map
      Prod.fst = ["https://main.datastore.bam.de/", "https://datastore.bam.de/en/home", "/en"] ∧
    isAbsoluteHttpUrl "/en" = false ∧
    ¬ ∀ href ∈ ((MainButtons (fun _ key => key)).value.links "a").map Prod.fst,
        isAbsoluteHttpUrl href = true := by
  refine ⟨rfl, by decide, ?_⟩
  intro h
  have h3 := h "/en" (by decide)
  revert h3
  decide

/-- C6, amended: the localized `MainButtons` renders three anchors whose `href`s
are hard-coded, the same list for every hook, hence for every locale and every
catalog; the first two (main instance, wiki) are absolute `https` URLs, the
third (masterdata tools) is the site-relative path `/en`. The `MainButtons` of
`gui/app` has the same first two and `#` as the third. -/
theorem MainButtons_hrefs_fixed :
    (∀ useTranslations : String → String → String,
      ((MainButtons useTranslations).value.links "a").map Prod.fst =
        ["https://main.datastore.bam.de/", "https://datastore.bam.de/en/home", "/en"]) ∧
    (∀ useTranslations : String → String → String,
      (MainButtons useTranslations).value.tags = ["div", "div", "a", "a", "a"]) ∧
    isAbsoluteHttpUrl "https://main.datastore.bam.de/" = true ∧
    isAbsoluteHttpUrl "https://datastore.bam.de/en/home" = true ∧
    isAbsoluteHttpUrl "/en" = false ∧
    (App.MainButtons.links "a").map Prod.fst =
      ["https://main.datastore.bam.de/", "https://datastore.bam.de/en/home", "#"] ∧
    isAbsoluteHttpUrl "#" = false := by
  refine ⟨fun _ => rfl, fun _ => rfl, ?_, ?_, ?_, rfl, ?_⟩ <;> decide

/-! ## The home page -/

/-- C7: the home page renders exactly three top-level components, `Header`,
`Main` and `Footer`, in that order, and `Main` renders `Welcome`, `MainButtons`
and `OtherInstances`, in that order; both are constants, with no input. -/
theorem Home_renders_Header_Main_Footer :
    App.Home.kids = [.elem "Header" [] [], .elem "Main" [] [], .elem "Footer" [] []] ∧
    App.Home.tags = ["div", "Header", "Main", "Footer"] ∧
    App.component? "Main" = some App.Main ∧
    App.Main.kids =
      [.elem "Welcome" [] [], .elem "MainButtons" [] [], .elem "OtherInstances" [] []] ∧
    App.Main.tags = ["main", "Welcome", "MainButtons", "OtherInstances"] :=
  ⟨rfl, rfl, rfl, rfl, rfl⟩

/-! ## The language menu of the footer -/

/-- One more click flips `menuOpen`. -/
theorem afterClicks_succ (n : Nat) :
    (afterClicks (n + 1)).menuOpen = !(afterClicks n).menuOpen := by
  simp [afterClicks, Function.iterate_succ_apply', toggleMenu]

/-- C10: the language menu is closed at first and each invocation of
`toggleMenu` flips it: after `n` invocations `menuOpen` is true if and only if
`n` is odd; the menu, with the two links `/en` (English) and `/de` (Deutsch), is
part of the rendered `Footer` if and only if `menuOpen` is true; two consecutive
clicks restore the state and the rendering. -/
theorem Footer_menu_open_iff_odd :
    FooterState.initial.menuOpen = false ∧
    (∀ n : Nat, (afterClicks n).menuOpen = true ↔ n % 2 = 1) ∧
    (∀ s : FooterState, languageMenu ∈ (Footer s).nodes ↔ s.menuOpen = true) ∧
    (∀ s : FooterState, (Footer s).links "Link" =
      if s.menuOpen then [("/en", ["English"]), ("/de", ["Deutsch"])] else []) ∧
    languageMenu.links "Link" = [("/en", ["English"]), ("/de", ["Deutsch"])] ∧
    (∀ s : FooterState, toggleMenu (toggleMenu s) = s ∧
      Footer (toggleMenu (toggleMenu s)) = Footer s) ∧
    (∀ n : Nat, Footer (afterClicks (n + 2)) = Footer (afterClicks n)) := by
  have parity : ∀ n : Nat, (afterClicks n).menuOpen = true ↔ n % 2 = 1 := by
    intro n
    induction n with
    | zero => decide
    | succ k ih =>
      rw [afterClicks_succ]
      cases hk : (afterClicks k).menuOpen with
      | true =>
        have := ih.1 hk
        simp
        omega
      | false =>
        have : ¬ k % 2 = 1 := fun h => by
          have := ih.2 h
          rw [hk] at this
          cases this
        simp
        omega
  have twice : ∀ s : FooterState, toggleMenu (toggleMenu s) = s := by
    intro s
    cases s with
    | mk b => cases b <;> rfl
  refine ⟨rfl, parity, ?_, ?_, rfl, ?_, ?_⟩
  · intro s
    cases s with
    | mk b =>
      cases b
      · simp [Footer, languageMenu, Node.nodes, Node.nodesL]
      · simp [Footer, languageMenu, Node.nodes, Node.nodesL]
  · intro s
    cases s with
    | mk b => cases b <;> rfl
  · intro s
    exact ⟨twice s, by rw [twice s]⟩
  · intro n
    have h : afterClicks (n + 2) = toggleMenu (toggleMenu (afterClicks n)) := by
      simp [afterClicks, Function.iterate_succ_apply']
    rw [h, twice]

end BamDataStore
